import Mathlib

/-!
Shallow embedding of the reaction-boosting subsystem of the repository:
`ReactionBoostService` (src/services/reaction_boost_service.py),
`PostMonitorService` (src/services/post_monitor_service.py),
`ActivityLogger` (src/services/activity_logger.py) and
`ReactionSettings` (src/models/reaction_settings.py).

Modelling conventions:
- Database state (BoostedPost rows, ActivityLog rows, channels) is an explicit
  `Db` value threaded through the operations; commits are abstracted away
  (the stores are modelled as never failing).
- The external Telegram primitive `bot.set_message_reaction` is modelled by an
  oracle `behavior : Nat → ApiOutcome`, indexed by the running count of
  external calls made so far in the operation under study.  Its outcomes
  mirror the exception classes the code distinguishes: success,
  TelegramRetryAfter (with its retry_after duration), TelegramForbiddenError,
  any other TelegramAPIError, and exceptions outside TelegramAPIError.
- Randomness (`random.shuffle`, `random.uniform`) is modelled by oracles:
  a `shuffle` function on lists and a `uniform a b k` sequence of draws.
- Wall-clock timestamps are abstracted away (no claim mentions them).
- Sleeps and external calls are recorded in an event trace, so that claims
  about call counts and delay placement are statable.
- Fields of `ReactionSettings` that the source dynamically type-checks with
  `isinstance` (reaction_count, delay_min, delay_max) are modelled with a
  dynamic value type `PyVal`; note that in Python `bool` is a subclass of
  `int`, which `PyVal` reproduces.
-/

/-- Dynamic Python value, for fields whose type the source checks at runtime
and for ActivityLog detail payloads. -/
inductive PyVal where
  | pint (n : Int)
  | pfloat (q : ℚ)
  | pbool (b : Bool)
  | pstr (s : String)
  | pnone
deriving Repr, DecidableEq

/-- Python `isinstance(x, int)`: true for int and bool (bool subclasses int). -/
def PyVal.isInstInt : PyVal → Bool
  | .pint _ => true
  | .pbool _ => true
  | _ => false

/-- Python `isinstance(x, (int, float))`. -/
def PyVal.isInstNum : PyVal → Bool
  | .pint _ => true
  | .pfloat _ => true
  | .pbool _ => true
  | _ => false

/-- Integer value of a PyVal that passed the `isinstance(x, int)` check. -/
def PyVal.intOf : PyVal → Int
  | .pint n => n
  | .pbool b => if b then 1 else 0
  | _ => 0

/-- Numeric value of a PyVal that passed the `isinstance(x, (int, float))` check. -/
def PyVal.numOf : PyVal → ℚ
  | .pint n => (n : ℚ)
  | .pfloat q => q
  | .pbool b => if b then 1 else 0
  | _ => 0

/-- ReactionSettings dataclass (src/models/reaction_settings.py).  The three
numeric fields keep their dynamic type because `validate` type-checks them. -/
structure ReactionSettings where
  emojis : List String
  reaction_count : PyVal
  delay_min : PyVal
  delay_max : PyVal
  auto_boost : Bool
deriving Repr, DecidableEq

/-- `ReactionSettings.validate`: ordered short-circuit checks, returning
(is_valid, optional error message), exactly as in the source. -/
def ReactionSettings.validate (s : ReactionSettings) : Bool × Option String :=
  if s.emojis = [] then
    (false, some "At least one emoji must be selected")
  else if ¬ s.reaction_count.isInstInt then
    (false, some "Reaction count must be an integer")
  else if ¬ (1 ≤ s.reaction_count.intOf ∧ s.reaction_count.intOf ≤ 100) then
    (false, some "Reaction count must be between 1 and 100")
  else if ¬ (s.delay_min.isInstNum ∧ s.delay_max.isInstNum) then
    (false, some "Delay values must be numbers")
  else if s.delay_min.numOf < 0 then
    (false, some "Minimum delay must be non-negative")
  else if s.delay_max.numOf < s.delay_min.numOf then
    (false, some "Maximum delay must be greater than or equal to minimum delay")
  else if s.reaction_count.intOf > (s.emojis.length : Int) then
    (false, some "Reaction count cannot exceed number of emojis")
  else
    (true, none)

/-- A settings dict restricted to the five recognized keys; `none` models an
absent key.  (`ReactionSettings.from_dict` only ever reads these five keys.) -/
structure SettingsDict where
  emojis : Option (List String)
  reaction_count : Option PyVal
  delay_min : Option PyVal
  delay_max : Option PyVal
  auto_boost : Option Bool
deriving Repr, DecidableEq

/-- Python `{}` is falsy: `if not channel.reaction_settings` also short-circuits
on an empty dict. -/
def SettingsDict.isEmptyDict (d : SettingsDict) : Bool :=
  d.emojis = none ∧ d.reaction_count = none ∧ d.delay_min = none ∧
    d.delay_max = none ∧ d.auto_boost = none

/-- `ReactionSettings.from_dict`: `data.get(key, default)` for each field. -/
def ReactionSettings.fromDict (d : SettingsDict) : ReactionSettings where
  emojis := d.emojis.getD []
  reaction_count := d.reaction_count.getD (.pint 1)
  delay_min := d.delay_min.getD (.pfloat 2)
  delay_max := d.delay_max.getD (.pfloat 8)
  auto_boost := d.auto_boost.getD true

/-- `ReactionSettings.to_dict`: a dict holding exactly the five keys. -/
def ReactionSettings.toDict (s : ReactionSettings) : SettingsDict where
  emojis := some s.emojis
  reaction_count := some s.reaction_count
  delay_min := some s.delay_min
  delay_max := some s.delay_max
  auto_boost := some s.auto_boost

/-- Channel model row (src/models/channel.py), restricted to the fields the
core reads: internal id, external Telegram id, mode, settings blob, active flag. -/
structure Channel where
  id : Int
  channel_id : Int
  mode : String
  reaction_settings : Option SettingsDict
  is_active : Bool
deriving Repr, DecidableEq

/-- Telegram message, restricted to the field the core reads. -/
structure Post where
  message_id : Int
deriving Repr, DecidableEq

/-- BoostedPost row (src/models/boosted_post.py); the timestamp is abstracted. -/
structure BoostedPost where
  channel_id : Int
  post_id : Int
  reaction_count : Nat
  emojis_used : List String
deriving Repr, DecidableEq

/-- ActivityLog row (src/models/activity_log.py); the timestamp is abstracted,
the JSON details payload is an ordered key/value list. -/
structure ActivityLog where
  channel_id : Int
  post_id : Option Int
  activity_type : String
  details : List (String × PyVal)
deriving Repr, DecidableEq

/-- Database state threaded through the operations. -/
structure Db where
  channels : List Channel
  boosted : List BoostedPost
  activity : List ActivityLog
deriving Repr, DecidableEq

/-- `ActivityLogger.log_reaction_added`. -/
def logReactionAdded (db : Db) (channelId : Int) (postId : Int) (emoji : String) : Db :=
  { db with activity := db.activity ++
      [{ channel_id := channelId, post_id := some postId,
         activity_type := "reaction_added", details := [("emoji", .pstr emoji)] }] }

/-- `ActivityLogger.log_boost_completed`. -/
def logBoostCompleted (db : Db) (channelId : Int) (postId : Int) (count : Nat) : Db :=
  { db with activity := db.activity ++
      [{ channel_id := channelId, post_id := some postId,
         activity_type := "boost_completed",
         details := [("reaction_count", .pint (count : Int))] }] }

/-- `ActivityLogger.log_error`: details are `{error_type: kind, **details}`. -/
def logError (db : Db) (channelId : Int) (postId : Option Int)
    (kind : String) (details : List (String × PyVal)) : Db :=
  { db with activity := db.activity ++
      [{ channel_id := channelId, post_id := postId,
         activity_type := "error",
         details := ("error_type", .pstr kind) :: details }] }

/-- Outcome of one `bot.set_message_reaction` call, mirroring the exception
classes the source distinguishes. -/
inductive ApiOutcome where
  | success
  | retryAfter (w : ℚ)
  | forbidden
  | apiError (s : String)
  | nonApiError (s : String)
deriving Repr, DecidableEq

/-- Exception value propagating out of the retry helper. -/
inductive PyErr where
  | retryAfter (w : ℚ)
  | forbidden
  | apiError (s : String)
  | nonApiError (s : String)
deriving Repr, DecidableEq

/-- Python `str(error)` for the exceptions we model (used in detail payloads;
no claim inspects these strings for the built-in classes). -/
def PyErr.pyStr : PyErr → String
  | .retryAfter _ => "Flood control exceeded"
  | .forbidden => "Forbidden"
  | .apiError s => s
  | .nonApiError s => s

/-- Externally observable events of one boost operation. -/
inductive Event where
  | apiCall (emoji : String)
  | sleepRetry (w : ℚ)
  | sleepBetween (d : ℚ)
deriving Repr, DecidableEq

deriving instance DecidableEq for Except

/-- Result of `_add_reaction_with_retry`: trace, normal or raised outcome, and
the updated external-call counter. -/
structure RetryResult where
  events : List Event
  outcome : Except PyErr Unit
  calls : Nat
deriving Repr, DecidableEq

/-- The body of the `for attempt in range(self.max_retries)` loop of
`_add_reaction_with_retry`, by recursion on the remaining attempts.
`remaining = 0` is the for-loop falling off the end (the function then returns
normally); a rate-limit on the last remaining attempt re-raises, since the
source retries only while `attempt < self.max_retries - 1`. -/
def addReactionAttempts (behavior : Nat → ApiOutcome) (emoji : String) :
    Nat → Nat → RetryResult
  | 0, calls => ⟨[], .ok (), calls⟩
  | remaining + 1, calls =>
    match behavior calls with
    | .success => ⟨[.apiCall emoji], .ok (), calls + 1⟩
    | .retryAfter w =>
      if remaining = 0 then
        ⟨[.apiCall emoji], .error (.retryAfter w), calls + 1⟩
      else
        let r := addReactionAttempts behavior emoji remaining (calls + 1)
        ⟨.apiCall emoji :: .sleepRetry w :: r.events, r.outcome, r.calls⟩
    | .forbidden => ⟨[.apiCall emoji], .error .forbidden, calls + 1⟩
    | .apiError s => ⟨[.apiCall emoji], .error (.apiError s), calls + 1⟩
    | .nonApiError s => ⟨[.apiCall emoji], .error (.nonApiError s), calls + 1⟩

/-- `self.max_retries`, set to 3 in `ReactionBoostService.__init__`. -/
def maxRetries : Nat := 3

/-- `ReactionBoostService._add_reaction_with_retry`. -/
def addReactionWithRetry (behavior : Nat → ApiOutcome) (emoji : String)
    (calls : Nat) : RetryResult :=
  addReactionAttempts behavior emoji maxRetries calls

/-- `ReactionBoostService._is_already_boosted`: a BoostedPost row keyed by
(channel_id, post_id) exists. -/
def isAlreadyBoosted (db : Db) (channelId : Int) (postId : Int) : Bool :=
  db.boosted.any (fun b => b.channel_id == channelId && b.post_id == postId)

/-- `ReactionBoostService._select_random_emojis`: shuffle a copy of the pool,
take the first `reaction_count` elements.  `shuffle` is the randomness oracle
standing for `random.shuffle` (always a permutation in the real system). -/
def selectRandomEmojis (shuffle : List String → List String)
    (s : ReactionSettings) : List String :=
  (shuffle s.emojis).take s.reaction_count.intOf.toNat

/-- `ReactionBoostService._disable_reaction_mode`. -/
def disableReactionMode (c : Channel) : Channel :=
  if c.mode = "both" then { c with mode := "comment" }
  else if c.mode = "reaction" then { c with mode := "comment" }
  else c

/-- `ReactionBoostService._handle_api_error`: classify by exception class,
log, and on a forbidden error additionally downgrade the channel mode. -/
def handleApiError (ch : Channel) (post : Post) (emoji : String) (e : PyErr)
    (db : Db) : Channel × Db :=
  match e with
  | .forbidden =>
    let db := logError db ch.id (some post.message_id) "permission_error"
      [("message", .pstr "Bot is not admin in channel")]
    (disableReactionMode ch, db)
  | .retryAfter w =>
    (ch, logError db ch.id (some post.message_id) "rate_limit"
      [("retry_after", .pfloat w)])
  | e =>
    (ch, logError db ch.id (some post.message_id) "unknown_error"
      [("error", .pstr e.pyStr), ("emoji", .pstr emoji)])

/-- `ReactionBoostService._mark_as_boosted`: insert the BoostedPost row.  The
source passes the full selected emoji list, including emojis whose reaction
call failed. -/
def markAsBoosted (db : Db) (channelId : Int) (postId : Int)
    (reactionCount : Nat) (emojis : List String) : Db :=
  { db with boosted := db.boosted ++
      [{ channel_id := channelId, post_id := postId,
         reaction_count := reactionCount, emojis_used := emojis }] }

/-- Result of the per-emoji loop of `boost_post`. -/
structure LoopResult where
  channel : Channel
  db : Db
  events : List Event
  added : Nat
  calls : Nat
  draws : Nat
  escaped : Option PyErr
deriving Repr, DecidableEq

/-- The per-emoji loop of `boost_post`.  On success the counter is incremented,
a reaction_added row is logged, and a randomized sleep happens when
`reactions_added < len(emojis)` (`total` is the length of the selected list).
On a TelegramAPIError the error handler runs and the loop continues; an
exception outside TelegramAPIError is not caught and escapes.  `uniform a b k`
is the randomness oracle standing for the k-th `random.uniform(a, b)` draw. -/
def boostLoop (behavior : Nat → ApiOutcome) (uniform : ℚ → ℚ → Nat → ℚ)
    (post : Post) (dmin dmax : ℚ) (total : Nat) :
    List String → Channel → Db → Nat → Nat → Nat → LoopResult
  | [], ch, db, added, calls, draws => ⟨ch, db, [], added, calls, draws, none⟩
  | emoji :: rest, ch, db, added, calls, draws =>
    let r := addReactionWithRetry behavior emoji calls
    match r.outcome with
    | .ok _ =>
      let added₁ := added + 1
      let db₁ := logReactionAdded db ch.id post.message_id emoji
      if added₁ < total then
        let d := uniform dmin dmax draws
        let t := boostLoop behavior uniform post dmin dmax total rest ch db₁
          added₁ r.calls (draws + 1)
        ⟨t.channel, t.db, r.events ++ [.sleepBetween d] ++ t.events,
          t.added, t.calls, t.draws, t.escaped⟩
      else
        let t := boostLoop behavior uniform post dmin dmax total rest ch db₁
          added₁ r.calls draws
        ⟨t.channel, t.db, r.events ++ t.events, t.added, t.calls, t.draws,
          t.escaped⟩
    | .error (.nonApiError s) =>
      ⟨ch, db, r.events, added, r.calls, draws, some (.nonApiError s)⟩
    | .error e =>
      let (ch₁, db₁) := handleApiError ch post emoji e db
      let t := boostLoop behavior uniform post dmin dmax total rest ch₁ db₁
        added r.calls draws
      ⟨t.channel, t.db, r.events ++ t.events, t.added, t.calls, t.draws,
        t.escaped⟩

/-- Result of one `boost_post` call: the channel after the call (its mode may
have been downgraded), the database, the event trace, and the exception that
escaped to the caller, if any. -/
structure BoostResult where
  channel : Channel
  db : Db
  events : List Event
  escaped : Option PyErr
deriving Repr, DecidableEq

/-- `ReactionBoostService.boost_post`: dedup check, config gate, auto-boost
gate, validation gate, emoji selection, per-emoji loop, completion. -/
def boostPost (behavior : Nat → ApiOutcome) (shuffle : List String → List String)
    (uniform : ℚ → ℚ → Nat → ℚ) (ch : Channel) (post : Post) (db : Db) :
    BoostResult :=
  if isAlreadyBoosted db ch.id post.message_id then ⟨ch, db, [], none⟩
  else
    match ch.reaction_settings with
    | none => ⟨ch, db, [], none⟩
    | some d =>
      if d.isEmptyDict then ⟨ch, db, [], none⟩
      else
        let settings := ReactionSettings.fromDict d
        if settings.auto_boost = false then ⟨ch, db, [], none⟩
        else
          match settings.validate with
          | (false, msg) =>
            ⟨ch, logError db ch.id (some post.message_id) "invalid_settings"
              [("error", match msg with | some m => .pstr m | none => .pnone)],
              [], none⟩
          | (true, _) =>
            let emojis := selectRandomEmojis shuffle settings
            let t := boostLoop behavior uniform post settings.delay_min.numOf
              settings.delay_max.numOf emojis.length emojis ch db 0 0 0
            match t.escaped with
            | some e => ⟨t.channel, t.db, t.events, some e⟩
            | none =>
              if t.added > 0 then
                let db₁ := markAsBoosted t.db ch.id post.message_id t.added emojis
                let db₂ := logBoostCompleted db₁ ch.id post.message_id t.added
                ⟨t.channel, db₂, t.events, none⟩
              else
                ⟨t.channel, t.db, t.events, none⟩

/-- In-memory dedup cache of PostMonitorService: `last_checked`,
a dict from internal channel id to the highest routed post id. -/
abbrev MonitorState := List (Int × Int)

/-- Python `self.last_checked.get(channel.id, 0)`. -/
def getLastChecked (st : MonitorState) (channelId : Int) : Int :=
  (st.lookup channelId).getD 0

/-- Python `self.last_checked[channel.id] = post.message_id`. -/
def setLastChecked (st : MonitorState) (channelId : Int) (v : Int) : MonitorState :=
  (channelId, v) :: st.filter (fun p => p.1 != channelId)

/-- `PostMonitorService.process_channel_post`.  The boosting collaborator is
an optional function that may raise; its exception is swallowed by the
`try/except` around the dispatch, so the result type has no error component.
Returns the new cache and the list of post ids dispatched to the collaborator
(at most one element). -/
def processChannelPost (service : Option (Channel → Post → Except String Unit))
    (ch : Channel) (post : Post) (st : MonitorState) : MonitorState × List Int :=
  let lastId := getLastChecked st ch.id
  if post.message_id ≤ lastId then (st, [])
  else
    let st₁ := setLastChecked st ch.id post.message_id
    if (ch.mode = "reaction" ∨ ch.mode = "both") then
      match service with
      | some f =>
        let _ := f ch post
        (st₁, [post.message_id])
      | none => (st₁, [])
    else (st₁, [])

/-- Outcome of `bot.get_chat` as seen by `_fetch_new_posts`. -/
inductive GetChatOutcome where
  | ok
  | telegramError (s : String)
  | otherError (s : String)
deriving Repr, DecidableEq

/-- `PostMonitorService._fetch_new_posts`: after the chat lookup it always
builds and returns an empty list; a TelegramError is caught by the inner
handler and any other exception by the outer handler, both returning the
empty list. -/
def fetchNewPosts (getChat : Int → GetChatOutcome) (st : MonitorState)
    (ch : Channel) : List Post :=
  let _lastId := getLastChecked st ch.id
  match getChat ch.channel_id with
  | .ok => []
  | .telegramError _ => []
  | .otherError _ => []

/-- The `for post in new_posts` body of `monitor_channels`: dispatch to
`boost_post` when the mode allows and a reaction service is configured,
swallowing exceptions; threads the channel object and the database. -/
def monitorPostsLoop (behavior : Nat → ApiOutcome)
    (shuffle : List String → List String) (uniform : ℚ → ℚ → Nat → ℚ)
    (hasService : Bool) : List Post → Channel → Db → Db × List Event × Nat
  | [], _, db => (db, [], 0)
  | p :: ps, ch, db =>
    if (ch.mode = "reaction" ∨ ch.mode = "both") ∧ hasService then
      let r := boostPost behavior shuffle uniform ch p db
      let t := monitorPostsLoop behavior shuffle uniform hasService ps r.channel r.db
      (t.1, r.events ++ t.2.1, t.2.2 + 1)
    else
      monitorPostsLoop behavior shuffle uniform hasService ps ch db

/-- The per-channel body of `monitor_channels`. -/
def monitorChannelsLoop (behavior : Nat → ApiOutcome)
    (shuffle : List String → List String) (uniform : ℚ → ℚ → Nat → ℚ)
    (getChat : Int → GetChatOutcome) (hasService : Bool) (st : MonitorState) :
    List Channel → Db → Db × List Event × Nat
  | [], db => (db, [], 0)
  | ch :: chs, db =>
    let posts := fetchNewPosts getChat st ch
    let r := monitorPostsLoop behavior shuffle uniform hasService posts ch db
    let t := monitorChannelsLoop behavior shuffle uniform getChat hasService st chs r.1
    (t.1, r.2.1 ++ t.2.1, r.2.2 + t.2.2)

/-- `PostMonitorService.monitor_channels`: load active channels, sweep each,
returning the database, the external event trace, and the number of
`boost_post` invocations performed by the sweep. -/
def monitorChannels (behavior : Nat → ApiOutcome)
    (shuffle : List String → List String) (uniform : ℚ → ℚ → Nat → ℚ)
    (getChat : Int → GetChatOutcome) (hasService : Bool) (st : MonitorState)
    (db : Db) : Db × List Event × Nat :=
  monitorChannelsLoop behavior shuffle uniform getChat hasService st
    (db.channels.filter (fun c => c.is_active)) db

/-- Number of ActivityLog rows of a given activity type. -/
def countType (db : Db) (t : String) : Nat :=
  (db.activity.filter (fun a => a.activity_type == t)).length

/-- Number of error ActivityLog rows of a given error kind. -/
def countErrorKind (db : Db) (kind : String) : Nat :=
  (db.activity.filter (fun a =>
    a.activity_type == "error" &&
      a.details.lookup "error_type" == some (.pstr kind))).length

/-- The failure payload an `ApiOutcome` propagates, `none` for success. -/
def ApiOutcome.errOf : ApiOutcome → Option PyErr
  | .success => none
  | .retryAfter w => some (.retryAfter w)
  | .forbidden => some .forbidden
  | .apiError s => some (.apiError s)
  | .nonApiError s => some (.nonApiError s)

/-! Concrete inputs used by witnesses and counterexamples. -/

/-- A post with message id 5. -/
def exPost : Post := { message_id := 5 }

/-- An empty database. -/
def exDb : Db := { channels := [], boosted := [], activity := [] }

/-- A database already holding a BoostedPost row for channel 1, post 5. -/
def exDbBoosted : Db :=
  { channels := [], activity := [],
    boosted := [{ channel_id := 1, post_id := 5, reaction_count := 1,
                  emojis_used := ["a"] }] }

/-- Valid settings dict: three emojis, three reactions, zero delays. -/
def exDict3 : SettingsDict :=
  { emojis := some ["a", "b", "c"], reaction_count := some (.pint 3),
    delay_min := some (.pint 0), delay_max := some (.pint 0),
    auto_boost := some true }

/-- Valid settings dict: two emojis, two reactions, delays fixed at 1. -/
def exDict2 : SettingsDict :=
  { emojis := some ["a", "b"], reaction_count := some (.pint 2),
    delay_min := some (.pint 1), delay_max := some (.pint 1),
    auto_boost := some true }

/-- Channel 1 in reaction mode with the three-emoji settings. -/
def exCh3 : Channel :=
  { id := 1, channel_id := 10, mode := "reaction",
    reaction_settings := some exDict3, is_active := true }

/-- Channel 1 in reaction mode with the two-emoji settings. -/
def exCh2 : Channel :=
  { id := 1, channel_id := 10, mode := "reaction",
    reaction_settings := some exDict2, is_active := true }

/-- Channel 1 in mode both with the two-emoji settings. -/
def exChBoth : Channel :=
  { id := 1, channel_id := 10, mode := "both",
    reaction_settings := some exDict2, is_active := true }

/-- Reaction primitive whose second call fails with a generic TelegramAPIError. -/
def exBehaviorMidFail : Nat → ApiOutcome :=
  fun k => if k = 1 then .apiError "boom" else .success

/-- Reaction primitive whose first call fails with a generic TelegramAPIError. -/
def exBehaviorFirstFail : Nat → ApiOutcome :=
  fun k => if k = 0 then .apiError "x" else .success

/-- Reaction primitive that always fails with TelegramForbiddenError. -/
def exBehaviorForbidden : Nat → ApiOutcome := fun _ => .forbidden

/-- Reaction primitive that always raises outside TelegramAPIError. -/
def exBehaviorNonApi : Nat → ApiOutcome := fun _ => .nonApiError "boom"

/-- Reaction primitive that is rate-limited once, then succeeds. -/
def exBehaviorRetryOnce : Nat → ApiOutcome :=
  fun k => if k = 0 then .retryAfter 5 else .success

/-- Uniform-draw oracle constantly 1. -/
def exUniform : ℚ → ℚ → Nat → ℚ := fun _ _ _ => 1

/-! Helper lemmas (shared infrastructure for the claim theorems). -/

theorem disableReactionMode_id (c : Channel) : (disableReactionMode c).id = c.id := by
  unfold disableReactionMode; split_ifs <;> rfl

theorem disableReactionMode_channel_id (c : Channel) :
    (disableReactionMode c).channel_id = c.channel_id := by
  unfold disableReactionMode; split_ifs <;> rfl

theorem disableReactionMode_idem (c : Channel) :
    disableReactionMode (disableReactionMode c) = disableReactionMode c := by
  unfold disableReactionMode; split_ifs <;> simp_all

theorem disableReactionMode_mode (c : Channel)
    (h : c.mode = "both" ∨ c.mode = "reaction") :
    (disableReactionMode c).mode = "comment" := by
  unfold disableReactionMode; rcases h with h | h <;> simp [h]

theorem handleApiError_id (ch : Channel) (post : Post) (emoji : String)
    (e : PyErr) (db : Db) : ((handleApiError ch post emoji e db).1).id = ch.id := by
  cases e <;> simp [handleApiError, disableReactionMode_id]

theorem handleApiError_boosted (ch : Channel) (post : Post) (emoji : String)
    (e : PyErr) (db : Db) :
    ((handleApiError ch post emoji e db).2).boosted = db.boosted := by
  cases e <;> simp [handleApiError, logError]

theorem countType_logReactionAdded (db : Db) (cid pid : Int) (e t : String) :
    countType (logReactionAdded db cid pid e) t =
      countType db t + (if "reaction_added" = t then 1 else 0) := by
  simp only [countType, logReactionAdded, List.filter_append, List.length_append,
    List.filter_cons, List.filter_nil]
  split_ifs with h <;> simp_all

theorem countType_logBoostCompleted (db : Db) (cid pid : Int) (n : Nat) (t : String) :
    countType (logBoostCompleted db cid pid n) t =
      countType db t + (if "boost_completed" = t then 1 else 0) := by
  simp only [countType, logBoostCompleted, List.filter_append, List.length_append,
    List.filter_cons, List.filter_nil]
  split_ifs with h <;> simp_all

theorem countType_logError (db : Db) (cid : Int) (pid : Option Int)
    (kind : String) (det : List (String × PyVal)) (t : String) :
    countType (logError db cid pid kind det) t =
      countType db t + (if "error" = t then 1 else 0) := by
  simp only [countType, logError, List.filter_append, List.length_append,
    List.filter_cons, List.filter_nil]
  split_ifs with h <;> simp_all

theorem countType_markAsBoosted (db : Db) (cid pid : Int) (n : Nat)
    (emojis : List String) (t : String) :
    countType (markAsBoosted db cid pid n emojis) t = countType db t := by
  simp [countType, markAsBoosted]

theorem countErrorKind_logError (db : Db) (cid : Int) (pid : Option Int)
    (kind kind₂ : String) (det : List (String × PyVal)) :
    countErrorKind (logError db cid pid kind det) kind₂ =
      countErrorKind db kind₂ + (if kind = kind₂ then 1 else 0) := by
  simp only [countErrorKind, logError, List.filter_append, List.length_append,
    List.filter_cons, List.filter_nil, List.lookup]
  split_ifs with h <;> simp_all

theorem countErrorKind_logReactionAdded (db : Db) (cid pid : Int) (e k : String) :
    countErrorKind (logReactionAdded db cid pid e) k = countErrorKind db k := by
  simp [countErrorKind, logReactionAdded, List.filter_append]

theorem boostPost_of_boosted (B : Nat → ApiOutcome)
    (sh : List String → List String) (U : ℚ → ℚ → Nat → ℚ)
    (ch : Channel) (post : Post) (db : Db)
    (h : isAlreadyBoosted db ch.id post.message_id = true) :
    boostPost B sh U ch post db = ⟨ch, db, [], none⟩ := by
  simp [boostPost, h]

theorem addReactionAttempts_calls_le (B : Nat → ApiOutcome) (emoji : String) :
    ∀ rem calls,
      ((addReactionAttempts B emoji rem calls).events.countP
        (fun e => match e with | .apiCall _ => true | _ => false)) ≤ rem := by
  intro rem
  induction rem with
  | zero => intro calls; simp [addReactionAttempts]
  | succ r ih =>
    intro calls
    unfold addReactionAttempts
    cases hb : B calls with
    | success => simp [List.countP_cons]
    | retryAfter w =>
      by_cases hr : r = 0
      · simp [hr, List.countP_cons]
      · have h2 := ih (calls + 1)
        have e1 : (match Event.apiCall emoji with
          | Event.apiCall _ => true | _ => false) = true := rfl
        have e2 : (match Event.sleepRetry w with
          | Event.apiCall _ => true | _ => false) = false := rfl
        simp only [hr, if_false, List.countP_cons, e1, e2, Bool.false_eq_true,
          if_false, if_true, eq_self_iff_true]
        omega
    | forbidden => simp [List.countP_cons]
    | apiError s => simp [List.countP_cons]
    | nonApiError s => simp [List.countP_cons]

theorem addReactionAttempts_no_nonApi (B : Nat → ApiOutcome) (emoji : String)
    (hB : ∀ k s, B k ≠ .nonApiError s) :
    ∀ rem calls s,
      (addReactionAttempts B emoji rem calls).outcome ≠ .error (.nonApiError s) := by
  intro rem
  induction rem with
  | zero => intro calls s; simp [addReactionAttempts]
  | succ r ih =>
    intro calls s
    unfold addReactionAttempts
    cases hb : B calls with
    | success => simp
    | retryAfter w =>
      by_cases hr : r = 0
      · simp [hr]
      · simp only [hr, if_false]
        exact ih (calls + 1) s
    | forbidden => simp
    | apiError s₂ => simp
    | nonApiError s₂ => exact absurd hb (hB calls s₂)

theorem addReactionWithRetry_forbidden (B : Nat → ApiOutcome) (emoji : String)
    (c : Nat) (h : B c = .forbidden) :
    addReactionWithRetry B emoji c = ⟨[.apiCall emoji], .error .forbidden, c + 1⟩ := by
  show addReactionAttempts B emoji 3 c = _
  rw [show (3 : Nat) = 2 + 1 from rfl]
  simp [addReactionAttempts, h]

theorem boostLoop_channel_id (B : Nat → ApiOutcome) (U : ℚ → ℚ → Nat → ℚ)
    (post : Post) (dn dx : ℚ) (T : Nat) :
    ∀ l ch db a c d,
      ((boostLoop B U post dn dx T l ch db a c d).channel).id = ch.id := by
  intro l
  induction l with
  | nil => intro ch db a c d; simp [boostLoop]
  | cons emoji rest ih =>
    intro ch db a c d
    unfold boostLoop
    rcases ho : (addReactionWithRetry B emoji c).outcome with e | u
    · cases e with
      | retryAfter w => simp [ho, handleApiError, ih]
      | forbidden => simp [ho, handleApiError, ih, disableReactionMode_id]
      | apiError s => simp [ho, handleApiError, ih]
      | nonApiError s => simp [ho]
    · by_cases hlt : a + 1 < T
      · simp [ho, hlt, ih]
      · simp [ho, hlt, ih]

theorem boostLoop_counts (B : Nat → ApiOutcome) (U : ℚ → ℚ → Nat → ℚ)
    (post : Post) (dn dx : ℚ) (T : Nat)
    (hB : ∀ k s, B k ≠ .nonApiError s) :
    ∀ l ch db a c d,
      (boostLoop B U post dn dx T l ch db a c d).escaped = none ∧
      a ≤ (boostLoop B U post dn dx T l ch db a c d).added ∧
      (boostLoop B U post dn dx T l ch db a c d).added ≤ a + l.length ∧
      (boostLoop B U post dn dx T l ch db a c d).db.boosted = db.boosted ∧
      countType (boostLoop B U post dn dx T l ch db a c d).db "reaction_added" + a =
        countType db "reaction_added" +
          (boostLoop B U post dn dx T l ch db a c d).added ∧
      countType (boostLoop B U post dn dx T l ch db a c d).db "error" +
          (boostLoop B U post dn dx T l ch db a c d).added =
        countType db "error" + a + l.length ∧
      countType (boostLoop B U post dn dx T l ch db a c d).db "boost_completed" =
        countType db "boost_completed" := by
  intro l
  induction l with
  | nil =>
    intro ch db a c d
    simp [boostLoop]
  | cons emoji rest ih =>
    intro ch db a c d
    unfold boostLoop
    rcases ho : (addReactionWithRetry B emoji c).outcome with e | u
    · cases e with
      | retryAfter w =>
        obtain ⟨h1, h2, h3, h4, h5, h6, h7⟩ := ih ch
          (logError db ch.id (some post.message_id) "rate_limit"
            [("retry_after", .pfloat w)]) a (addReactionWithRetry B emoji c).calls d
        have e1 := countType_logError db ch.id (some post.message_id) "rate_limit"
          [("retry_after", .pfloat w)] "reaction_added"
        have e2 := countType_logError db ch.id (some post.message_id) "rate_limit"
          [("retry_after", .pfloat w)] "error"
        have e3 := countType_logError db ch.id (some post.message_id) "rate_limit"
          [("retry_after", .pfloat w)] "boost_completed"
        simp only [if_pos, if_neg, String.reduceEq, reduceIte] at e1 e2 e3
        simp only [ho, handleApiError, List.length_cons]
        exact ⟨h1, h2, by omega, by rw [h4]; simp [logError], by omega, by omega, by omega⟩
      | forbidden =>
        obtain ⟨h1, h2, h3, h4, h5, h6, h7⟩ := ih (disableReactionMode ch)
          (logError db ch.id (some post.message_id) "permission_error"
            [("message", .pstr "Bot is not admin in channel")]) a
          (addReactionWithRetry B emoji c).calls d
        have e1 := countType_logError db ch.id (some post.message_id) "permission_error"
          [("message", .pstr "Bot is not admin in channel")] "reaction_added"
        have e2 := countType_logError db ch.id (some post.message_id) "permission_error"
          [("message", .pstr "Bot is not admin in channel")] "error"
        have e3 := countType_logError db ch.id (some post.message_id) "permission_error"
          [("message", .pstr "Bot is not admin in channel")] "boost_completed"
        simp only [if_pos, if_neg, String.reduceEq, reduceIte] at e1 e2 e3
        simp only [ho, handleApiError, List.length_cons]
        exact ⟨h1, h2, by omega, by rw [h4]; simp [logError], by omega, by omega, by omega⟩
      | apiError s =>
        obtain ⟨h1, h2, h3, h4, h5, h6, h7⟩ := ih ch
          (logError db ch.id (some post.message_id) "unknown_error"
            [("error", .pstr (PyErr.apiError s).pyStr), ("emoji", .pstr emoji)]) a
          (addReactionWithRetry B emoji c).calls d
        have e1 := countType_logError db ch.id (some post.message_id) "unknown_error"
          [("error", .pstr (PyErr.apiError s).pyStr), ("emoji", .pstr emoji)] "reaction_added"
        have e2 := countType_logError db ch.id (some post.message_id) "unknown_error"
          [("error", .pstr (PyErr.apiError s).pyStr), ("emoji", .pstr emoji)] "error"
        have e3 := countType_logError db ch.id (some post.message_id) "unknown_error"
          [("error", .pstr (PyErr.apiError s).pyStr), ("emoji", .pstr emoji)] "boost_completed"
        simp only [if_pos, if_neg, String.reduceEq, reduceIte] at e1 e2 e3
        simp only [ho, handleApiError, List.length_cons]
        exact ⟨h1, h2, by omega, by rw [h4]; simp [logError], by omega, by omega, by omega⟩
      | nonApiError s =>
        exact absurd ho (addReactionAttempts_no_nonApi B emoji hB maxRetries c s)
    · by_cases hlt : a + 1 < T
      · obtain ⟨h1, h2, h3, h4, h5, h6, h7⟩ := ih ch
          (logReactionAdded db ch.id post.message_id emoji) (a + 1)
          (addReactionWithRetry B emoji c).calls (d + 1)
        have e1 := countType_logReactionAdded db ch.id post.message_id emoji "reaction_added"
        have e2 := countType_logReactionAdded db ch.id post.message_id emoji "error"
        have e3 := countType_logReactionAdded db ch.id post.message_id emoji "boost_completed"
        simp only [if_pos, if_neg, String.reduceEq, reduceIte] at e1 e2 e3
        simp only [ho, hlt, if_true, List.length_cons]
        exact ⟨h1, by omega, by omega, by rw [h4]; simp [logReactionAdded], by omega, by omega, by omega⟩
      · obtain ⟨h1, h2, h3, h4, h5, h6, h7⟩ := ih ch
          (logReactionAdded db ch.id post.message_id emoji) (a + 1)
          (addReactionWithRetry B emoji c).calls d
        have e1 := countType_logReactionAdded db ch.id post.message_id emoji "reaction_added"
        have e2 := countType_logReactionAdded db ch.id post.message_id emoji "error"
        have e3 := countType_logReactionAdded db ch.id post.message_id emoji "boost_completed"
        simp only [if_pos, if_neg, String.reduceEq, reduceIte] at e1 e2 e3
        simp only [ho, hlt, if_false, List.length_cons]
        exact ⟨h1, by omega, by omega, by rw [h4]; simp [logReactionAdded], by omega, by omega, by omega⟩

theorem boostLoop_forbidden (B : Nat → ApiOutcome) (U : ℚ → ℚ → Nat → ℚ)
    (post : Post) (dn dx : ℚ) (T : Nat) (hB : ∀ k, B k = .forbidden) :
    ∀ l ch db a c d,
      (boostLoop B U post dn dx T l ch db a c d).added = a ∧
      (boostLoop B U post dn dx T l ch db a c d).escaped = none ∧
      (boostLoop B U post dn dx T l ch db a c d).db.boosted = db.boosted ∧
      countErrorKind (boostLoop B U post dn dx T l ch db a c d).db "permission_error" =
        countErrorKind db "permission_error" + l.length ∧
      (boostLoop B U post dn dx T l ch db a c d).channel =
        (if l = [] then ch else disableReactionMode ch) := by
  intro l
  induction l with
  | nil =>
    intro ch db a c d
    simp [boostLoop]
  | cons emoji rest ih =>
    intro ch db a c d
    have ho : (addReactionWithRetry B emoji c).outcome = .error .forbidden := by
      rw [addReactionWithRetry_forbidden B emoji c (hB c)]
    obtain ⟨h1, h2, h3, h4, h5⟩ := ih (disableReactionMode ch)
      (logError db ch.id (some post.message_id) "permission_error"
        [("message", .pstr "Bot is not admin in channel")]) a
      (addReactionWithRetry B emoji c).calls d
    have e2 := countErrorKind_logError db ch.id (some post.message_id)
      "permission_error" "permission_error"
      [("message", .pstr "Bot is not admin in channel")]
    simp only [if_pos, reduceIte] at e2
    unfold boostLoop
    simp only [ho, handleApiError, List.length_cons]
    refine ⟨h1, h2, by rw [h3]; simp [logError], by omega, ?_⟩
    rw [h5]
    split_ifs <;> simp_all [disableReactionMode_idem]

theorem validate_true_iff (s : ReactionSettings) :
    s.validate = (true, none) ↔
      (s.emojis ≠ [] ∧ s.reaction_count.isInstInt = true ∧
       1 ≤ s.reaction_count.intOf ∧ s.reaction_count.intOf ≤ 100 ∧
       s.delay_min.isInstNum = true ∧ s.delay_max.isInstNum = true ∧
       0 ≤ s.delay_min.numOf ∧ s.delay_min.numOf ≤ s.delay_max.numOf ∧
       s.reaction_count.intOf ≤ (s.emojis.length : Int)) := by
  constructor
  · intro hv
    unfold ReactionSettings.validate at hv
    split_ifs at hv with h1 h2 h3 h4 h5 h6 h7 <;> simp_all [not_lt]
  · rintro ⟨h1, h2, h3, h4, h5, h6, h7, h8, h9⟩
    unfold ReactionSettings.validate
    rw [if_neg h1, if_neg (fun hc => hc (by simp [h2])),
      if_neg (fun hc => hc ⟨h3, h4⟩),
      if_neg (fun hc => hc ⟨by simp [h5], by simp [h6]⟩),
      if_neg (not_lt.mpr h7), if_neg (not_lt.mpr h8), if_neg (not_lt.mpr h9)]

theorem validate_fst_true (s : ReactionSettings) :
    (s.validate).1 = true ↔ s.validate = (true, none) := by
  unfold ReactionSettings.validate
  split_ifs <;> simp

theorem boostPost_channel_id (B : Nat → ApiOutcome)
    (sh : List String → List String) (U : ℚ → ℚ → Nat → ℚ)
    (ch : Channel) (post : Post) (db : Db) :
    (boostPost B sh U ch post db).channel.id = ch.id := by
  unfold boostPost
  by_cases h1 : isAlreadyBoosted db ch.id post.message_id
  · simp [h1]
  · rcases hrs : ch.reaction_settings with _ | d
    · simp [h1, hrs]
    · by_cases h2 : d.isEmptyDict
      · simp [h1, hrs, h2]
      · by_cases h3 : (ReactionSettings.fromDict d).auto_boost = false
        · simp [h1, hrs, h2, h3]
        · rcases hv : (ReactionSettings.fromDict d).validate with ⟨b, msg⟩
          cases b
          · simp [h1, hrs, h2, h3, hv]
          · rcases hesc : (boostLoop B U post
                (ReactionSettings.fromDict d).delay_min.numOf
                (ReactionSettings.fromDict d).delay_max.numOf
                (selectRandomEmojis sh (ReactionSettings.fromDict d)).length
                (selectRandomEmojis sh (ReactionSettings.fromDict d)) ch db 0 0 0).escaped
              with _ | e
            · by_cases ha : (boostLoop B U post
                  (ReactionSettings.fromDict d).delay_min.numOf
                  (ReactionSettings.fromDict d).delay_max.numOf
                  (selectRandomEmojis sh (ReactionSettings.fromDict d)).length
                  (selectRandomEmojis sh (ReactionSettings.fromDict d)) ch db 0 0 0).added > 0
              · simp [h1, hrs, h2, h3, hv, hesc, ha, boostLoop_channel_id]
              · simp [h1, hrs, h2, h3, hv, hesc, ha, boostLoop_channel_id]
            · simp [h1, hrs, h2, h3, hv, hesc, boostLoop_channel_id]

/-- C6: the add-reaction-with-retry sub-protocol makes at most 3 attempts; on a
rate-limit outcome it sleeps exactly the wait duration carried by the response
and retries (that attempt counting as one of the 3); a rate limit on the 3rd
attempt propagates as the raised error; any non-rate-limit error propagates
immediately, with no retry and no sleep.  The conjuncts fully enumerate the
behavior tree to depth 3. -/
theorem c6_retry_protocol (B : Nat → ApiOutcome) (emoji : String) (n : Nat) :
    ((addReactionWithRetry B emoji n).events.countP
        (fun e => match e with | .apiCall _ => true | _ => false) ≤ 3) ∧
    (B n = .success →
      addReactionWithRetry B emoji n = ⟨[.apiCall emoji], .ok (), n + 1⟩) ∧
    (∀ w, B n = .retryAfter w → B (n + 1) = .success →
      addReactionWithRetry B emoji n =
        ⟨[.apiCall emoji, .sleepRetry w, .apiCall emoji], .ok (), n + 2⟩) ∧
    (∀ w₁ w₂, B n = .retryAfter w₁ → B (n + 1) = .retryAfter w₂ →
      B (n + 2) = .success →
      addReactionWithRetry B emoji n =
        ⟨[.apiCall emoji, .sleepRetry w₁, .apiCall emoji, .sleepRetry w₂,
          .apiCall emoji], .ok (), n + 3⟩) ∧
    (∀ w₁ w₂ w₃, B n = .retryAfter w₁ → B (n + 1) = .retryAfter w₂ →
      B (n + 2) = .retryAfter w₃ →
      addReactionWithRetry B emoji n =
        ⟨[.apiCall emoji, .sleepRetry w₁, .apiCall emoji, .sleepRetry w₂,
          .apiCall emoji], .error (.retryAfter w₃), n + 3⟩) ∧
    (∀ e err, B n = e → e.errOf = some err → (∀ w, e ≠ .retryAfter w) →
      addReactionWithRetry B emoji n = ⟨[.apiCall emoji], .error err, n + 1⟩) ∧
    (∀ w₁ e err, B n = .retryAfter w₁ → B (n + 1) = e → e.errOf = some err →
      (∀ w, e ≠ .retryAfter w) →
      addReactionWithRetry B emoji n =
        ⟨[.apiCall emoji, .sleepRetry w₁, .apiCall emoji], .error err, n + 2⟩) ∧
    (∀ w₁ w₂ e err, B n = .retryAfter w₁ → B (n + 1) = .retryAfter w₂ →
      B (n + 2) = e → e.errOf = some err → (∀ w, e ≠ .retryAfter w) →
      addReactionWithRetry B emoji n =
        ⟨[.apiCall emoji, .sleepRetry w₁, .apiCall emoji, .sleepRetry w₂,
          .apiCall emoji], .error err, n + 3⟩) := by
  refine ⟨addReactionAttempts_calls_le B emoji 3 n, ?_, ?_, ?_, ?_, ?_, ?_, ?_⟩
  · intro h
    simp [addReactionWithRetry, maxRetries, addReactionAttempts, h]
  · intro w h1 h2
    simp [addReactionWithRetry, maxRetries, addReactionAttempts, h1, h2]
  · intro w₁ w₂ h1 h2 h3
    simp [addReactionWithRetry, maxRetries, addReactionAttempts, h1, h2, h3]
  · intro w₁ w₂ w₃ h1 h2 h3
    simp [addReactionWithRetry, maxRetries, addReactionAttempts, h1, h2, h3]
  · intro e err h1 h2 h3
    cases e with
    | success => simp [ApiOutcome.errOf] at h2
    | retryAfter w => exact absurd rfl (h3 w)
    | forbidden =>
      have hsub : err = PyErr.forbidden := by simpa [ApiOutcome.errOf] using h2.symm
      subst hsub
      simp [addReactionWithRetry, maxRetries, addReactionAttempts, h1]
    | apiError s =>
      have hsub : err = PyErr.apiError s := by simpa [ApiOutcome.errOf] using h2.symm
      subst hsub
      simp [addReactionWithRetry, maxRetries, addReactionAttempts, h1]
    | nonApiError s =>
      have hsub : err = PyErr.nonApiError s := by simpa [ApiOutcome.errOf] using h2.symm
      subst hsub
      simp [addReactionWithRetry, maxRetries, addReactionAttempts, h1]
  · intro w₁ e err h1 h2 h3 h4
    cases e with
    | success => simp [ApiOutcome.errOf] at h3
    | retryAfter w => exact absurd rfl (h4 w)
    | forbidden =>
      have hsub : err = PyErr.forbidden := by simpa [ApiOutcome.errOf] using h3.symm
      subst hsub
      simp [addReactionWithRetry, maxRetries, addReactionAttempts, h1, h2]
    | apiError s =>
      have hsub : err = PyErr.apiError s := by simpa [ApiOutcome.errOf] using h3.symm
      subst hsub
      simp [addReactionWithRetry, maxRetries, addReactionAttempts, h1, h2]
    | nonApiError s =>
      have hsub : err = PyErr.nonApiError s := by simpa [ApiOutcome.errOf] using h3.symm
      subst hsub
      simp [addReactionWithRetry, maxRetries, addReactionAttempts, h1, h2]
  · intro w₁ w₂ e err h1 h2 h3 h4 h5
    cases e with
    | success => simp [ApiOutcome.errOf] at h4
    | retryAfter w => exact absurd rfl (h5 w)
    | forbidden =>
      have hsub : err = PyErr.forbidden := by simpa [ApiOutcome.errOf] using h4.symm
      subst hsub
      simp [addReactionWithRetry, maxRetries, addReactionAttempts, h1, h2, h3]
    | apiError s =>
      have hsub : err = PyErr.apiError s := by simpa [ApiOutcome.errOf] using h4.symm
      subst hsub
      simp [addReactionWithRetry, maxRetries, addReactionAttempts, h1, h2, h3]
    | nonApiError s =>
      have hsub : err = PyErr.nonApiError s := by simpa [ApiOutcome.errOf] using h4.symm
      subst hsub
      simp [addReactionWithRetry, maxRetries, addReactionAttempts, h1, h2, h3]

/-- Witness for C6 at a concrete behavior: one rate limit with wait 5, then
success; the helper sleeps exactly 5 and uses 2 of its 3 attempts. -/
theorem c6_retry_protocol_witness :
    addReactionWithRetry exBehaviorRetryOnce "x" 0 =
      ⟨[.apiCall "x", .sleepRetry 5, .apiCall "x"], .ok (), 2⟩ :=
  (c6_retry_protocol exBehaviorRetryOnce "x" 0).2.2.1 5 rfl rfl

theorem getLastChecked_set (st : MonitorState) (k v : Int) :
    getLastChecked (setLastChecked st k v) k = v := by
  simp [getLastChecked, setLastChecked, List.lookup]

/-- C7: process_channel_post returns immediately without invoking the boosting
collaborator when the incoming post id is at most the stored high-water mark
(0 when absent); otherwise it stores the new high-water mark and dispatches to
the collaborator exactly when the mode is reaction or both and a collaborator
is configured; the collaborator outcome (including a raised exception) never
changes the result; hence two successive calls with an identical post id
invoke the collaborator exactly once. -/
theorem c7_process_channel_post
    (service : Option (Channel → Post → Except String Unit))
    (f : Channel → Post → Except String Unit)
    (ch : Channel) (post : Post) (st : MonitorState) :
    (post.message_id ≤ getLastChecked st ch.id →
      processChannelPost service ch post st = (st, [])) ∧
    (getLastChecked st ch.id < post.message_id →
      getLastChecked (processChannelPost service ch post st).1 ch.id =
        post.message_id ∧
      (processChannelPost service ch post st).2 =
        (if (ch.mode = "reaction" ∨ ch.mode = "both") ∧ service.isSome = true
          then [post.message_id] else [])) ∧
    (∀ g, processChannelPost (some f) ch post st =
      processChannelPost (some g) ch post st) ∧
    ((ch.mode = "reaction" ∨ ch.mode = "both") → service = some f →
      getLastChecked st ch.id < post.message_id →
      (processChannelPost service ch post st).2.length +
        (processChannelPost service ch post
          (processChannelPost service ch post st).1).2.length = 1) := by
  refine ⟨?_, ?_, ?_, ?_⟩
  · intro h
    simp [processChannelPost, h]
  · intro h
    have hn : ¬ post.message_id ≤ getLastChecked st ch.id := not_le.mpr h
    constructor
    · by_cases hm : ch.mode = "reaction" ∨ ch.mode = "both"
      · rcases service with _ | g
        · simp [processChannelPost, hn, hm, getLastChecked_set]
        · simp [processChannelPost, hn, hm, getLastChecked_set]
      · simp [processChannelPost, hn, hm, getLastChecked_set]
    · by_cases hm : ch.mode = "reaction" ∨ ch.mode = "both"
      · rcases service with _ | g
        · simp [processChannelPost, hn, hm]
        · simp [processChannelPost, hn, hm]
      · simp [processChannelPost, hn, hm]
  · intro g
    simp [processChannelPost]
  · intro hm hs h
    subst hs
    have hn : ¬ post.message_id ≤ getLastChecked st ch.id := not_le.mpr h
    have h1 : processChannelPost (some f) ch post st =
        (setLastChecked st ch.id post.message_id, [post.message_id]) := by
      simp [processChannelPost, hn, hm]
    rw [h1]
    have h2 : processChannelPost (some f) ch post
        (setLastChecked st ch.id post.message_id) =
        (setLastChecked st ch.id post.message_id, []) := by
      have : post.message_id ≤
          getLastChecked (setLastChecked st ch.id post.message_id) ch.id := by
        rw [getLastChecked_set]
      simp [processChannelPost, this]
    rw [h2]
    rfl

/-- Witness for C7: with a stored mark of 0 and an incoming post id 100 on a
reaction-mode channel with a configured collaborator, two successive calls
dispatch exactly once. -/
theorem c7_process_channel_post_witness :
    (processChannelPost (some (fun _ _ => Except.ok ())) exCh2 { message_id := 100 }
        []).2.length +
      (processChannelPost (some (fun _ _ => Except.ok ())) exCh2 { message_id := 100 }
        (processChannelPost (some (fun _ _ => Except.ok ())) exCh2
          { message_id := 100 } []).1).2.length = 1 :=
  (c7_process_channel_post (some (fun _ _ => Except.ok ()))
      (fun _ _ => Except.ok ()) exCh2 { message_id := 100 } []).2.2.2
    (Or.inl rfl) rfl (by decide)

theorem fetchNewPosts_empty (getChat : Int → GetChatOutcome) (st : MonitorState)
    (ch : Channel) : fetchNewPosts getChat st ch = [] := by
  unfold fetchNewPosts
  cases getChat ch.channel_id <;> rfl

theorem monitorChannelsLoop_noop (B : Nat → ApiOutcome)
    (sh : List String → List String) (U : ℚ → ℚ → Nat → ℚ)
    (getChat : Int → GetChatOutcome) (hasService : Bool) (st : MonitorState) :
    ∀ l db, monitorChannelsLoop B sh U getChat hasService st l db = (db, [], 0) := by
  intro l
  induction l with
  | nil => intro db; rfl
  | cons ch chs ih =>
    intro db
    simp [monitorChannelsLoop, fetchNewPosts_empty, monitorPostsLoop, ih]

/-- C10: the periodic sweep never boosts.  _fetch_new_posts returns the empty
list on every execution path (chat lookup success, Telegram error, or any
other exception), so monitor_channels performs zero boost_post invocations,
records zero external events, and leaves the database unchanged, for every
database state and bot behavior. -/
theorem c10_sweep_never_boosts (B : Nat → ApiOutcome)
    (sh : List String → List String) (U : ℚ → ℚ → Nat → ℚ)
    (getChat : Int → GetChatOutcome) (hasService : Bool) (st : MonitorState)
    (db : Db) :
    monitorChannels B sh U getChat hasService st db = (db, [], 0) ∧
    (∀ ch, fetchNewPosts getChat st ch = []) :=
  ⟨monitorChannelsLoop_noop B sh U getChat hasService st _ db,
    fun ch => fetchNewPosts_empty getChat st ch⟩

/-- C8: validate returns (true, none) exactly when the emoji pool is
non-empty, reaction_count passes the integer isinstance check with
1 ≤ reaction_count ≤ 100, both delays pass the numeric isinstance check,
delay_min ≥ 0, delay_max ≥ delay_min, and reaction_count ≤ pool size;
otherwise it reports only the first failing check, in that order.  Purity is
inherent in the embedding: validate is a function of the value object alone. -/
theorem c8_validate_contract (s : ReactionSettings) :
    ((s.validate).1 = true ↔
      (s.emojis ≠ [] ∧ s.reaction_count.isInstInt = true ∧
       1 ≤ s.reaction_count.intOf ∧ s.reaction_count.intOf ≤ 100 ∧
       s.delay_min.isInstNum = true ∧ s.delay_max.isInstNum = true ∧
       0 ≤ s.delay_min.numOf ∧ s.delay_min.numOf ≤ s.delay_max.numOf ∧
       s.reaction_count.intOf ≤ (s.emojis.length : Int))) ∧
    ((s.validate).1 = true → (s.validate).2 = none) ∧
    (s.emojis = [] →
      s.validate = (false, some "At least one emoji must be selected")) ∧
    (s.emojis ≠ [] → s.reaction_count.isInstInt = false →
      s.validate = (false, some "Reaction count must be an integer")) ∧
    (s.emojis ≠ [] → s.reaction_count.isInstInt = true →
      ¬ (1 ≤ s.reaction_count.intOf ∧ s.reaction_count.intOf ≤ 100) →
      s.validate = (false, some "Reaction count must be between 1 and 100")) ∧
    (s.emojis ≠ [] → s.reaction_count.isInstInt = true →
      1 ≤ s.reaction_count.intOf → s.reaction_count.intOf ≤ 100 →
      ¬ (s.delay_min.isInstNum = true ∧ s.delay_max.isInstNum = true) →
      s.validate = (false, some "Delay values must be numbers")) ∧
    (s.emojis ≠ [] → s.reaction_count.isInstInt = true →
      1 ≤ s.reaction_count.intOf → s.reaction_count.intOf ≤ 100 →
      s.delay_min.isInstNum = true → s.delay_max.isInstNum = true →
      s.delay_min.numOf < 0 →
      s.validate = (false, some "Minimum delay must be non-negative")) ∧
    (s.emojis ≠ [] → s.reaction_count.isInstInt = true →
      1 ≤ s.reaction_count.intOf → s.reaction_count.intOf ≤ 100 →
      s.delay_min.isInstNum = true → s.delay_max.isInstNum = true →
      0 ≤ s.delay_min.numOf → s.delay_max.numOf < s.delay_min.numOf →
      s.validate =
        (false, some "Maximum delay must be greater than or equal to minimum delay")) ∧
    (s.emojis ≠ [] → s.reaction_count.isInstInt = true →
      1 ≤ s.reaction_count.intOf → s.reaction_count.intOf ≤ 100 →
      s.delay_min.isInstNum = true → s.delay_max.isInstNum = true →
      0 ≤ s.delay_min.numOf → s.delay_min.numOf ≤ s.delay_max.numOf →
      (s.emojis.length : Int) < s.reaction_count.intOf →
      s.validate = (false, some "Reaction count cannot exceed number of emojis")) := by
  refine ⟨?_, ?_, ?_, ?_, ?_, ?_, ?_, ?_, ?_⟩
  · rw [validate_fst_true, validate_true_iff]
  · intro h
    rw [(validate_fst_true s).mp h]
  · intro h1
    unfold ReactionSettings.validate
    rw [if_pos h1]
  · intro h1 h2
    unfold ReactionSettings.validate
    rw [if_neg h1, if_pos (by simp [h2])]
  · intro h1 h2 h3
    unfold ReactionSettings.validate
    rw [if_neg h1, if_neg (fun hc => hc (by simp [h2])), if_pos h3]
  · intro h1 h2 h3 h4 h5
    unfold ReactionSettings.validate
    rw [if_neg h1, if_neg (fun hc => hc (by simp [h2])),
      if_neg (fun hc => hc ⟨h3, h4⟩), if_pos (by simpa using h5)]
  · intro h1 h2 h3 h4 h5 h6 h7
    unfold ReactionSettings.validate
    rw [if_neg h1, if_neg (fun hc => hc (by simp [h2])),
      if_neg (fun hc => hc ⟨h3, h4⟩),
      if_neg (fun hc => hc ⟨by simp [h5], by simp [h6]⟩), if_pos h7]
  · intro h1 h2 h3 h4 h5 h6 h7 h8
    unfold ReactionSettings.validate
    rw [if_neg h1, if_neg (fun hc => hc (by simp [h2])),
      if_neg (fun hc => hc ⟨h3, h4⟩),
      if_neg (fun hc => hc ⟨by simp [h5], by simp [h6]⟩),
      if_neg (not_lt.mpr h7), if_pos h8]
  · intro h1 h2 h3 h4 h5 h6 h7 h8 h9
    unfold ReactionSettings.validate
    rw [if_neg h1, if_neg (fun hc => hc (by simp [h2])),
      if_neg (fun hc => hc ⟨h3, h4⟩),
      if_neg (fun hc => hc ⟨by simp [h5], by simp [h6]⟩),
      if_neg (not_lt.mpr h7), if_neg (not_lt.mpr h8), if_pos h9]

/-- Witness for C8: the spec scenario with an empty emoji list reports the
first check, and a fully valid settings object validates to (true, none). -/
theorem c8_validate_contract_witness :
    (ReactionSettings.validate
        ⟨[], .pint 1, .pint 0, .pint 1, true⟩ =
      (false, some "At least one emoji must be selected")) ∧
    (ReactionSettings.validate
        ⟨["a", "b", "c"], .pint 3, .pint 2, .pint 8, true⟩).1 = true :=
  ⟨(c8_validate_contract ⟨[], .pint 1, .pint 0, .pint 1, true⟩).2.2.1 rfl,
    (c8_validate_contract ⟨["a", "b", "c"], .pint 3, .pint 2, .pint 8, true⟩).1.mpr
      (by refine ⟨by decide, rfl, by decide, by decide, rfl, rfl, ?_, ?_, by decide⟩ <;> decide)⟩

/-- C9: for every dict holding exactly the five recognized keys, from_dict
followed by to_dict is the identity; defaults are applied only for absent
keys, never for present keys. -/
theorem c9_round_trip (d : SettingsDict) :
    (d.emojis.isSome = true → d.reaction_count.isSome = true →
      d.delay_min.isSome = true → d.delay_max.isSome = true →
      d.auto_boost.isSome = true →
      (ReactionSettings.fromDict d).toDict = d) ∧
    (∀ v, d.emojis = some v → (ReactionSettings.fromDict d).emojis = v) ∧
    (∀ v, d.reaction_count = some v →
      (ReactionSettings.fromDict d).reaction_count = v) ∧
    (∀ v, d.delay_min = some v → (ReactionSettings.fromDict d).delay_min = v) ∧
    (∀ v, d.delay_max = some v → (ReactionSettings.fromDict d).delay_max = v) ∧
    (∀ v, d.auto_boost = some v → (ReactionSettings.fromDict d).auto_boost = v) ∧
    (d.emojis = none → (ReactionSettings.fromDict d).emojis = []) ∧
    (d.reaction_count = none →
      (ReactionSettings.fromDict d).reaction_count = .pint 1) ∧
    (d.delay_min = none → (ReactionSettings.fromDict d).delay_min = .pfloat 2) ∧
    (d.delay_max = none → (ReactionSettings.fromDict d).delay_max = .pfloat 8) ∧
    (d.auto_boost = none → (ReactionSettings.fromDict d).auto_boost = true) := by
  obtain ⟨e, rc, dn, dx, ab⟩ := d
  refine ⟨?_, ?_, ?_, ?_, ?_, ?_, ?_, ?_, ?_, ?_, ?_⟩
  · intro h1 h2 h3 h4 h5
    cases e <;> cases rc <;> cases dn <;> cases dx <;> cases ab <;>
      simp_all [ReactionSettings.fromDict, ReactionSettings.toDict]
  · rintro v rfl; rfl
  · rintro v rfl; rfl
  · rintro v rfl; rfl
  · rintro v rfl; rfl
  · rintro v rfl; rfl
  · rintro rfl; rfl
  · rintro rfl; rfl
  · rintro rfl; rfl
  · rintro rfl; rfl
  · rintro rfl; rfl

/-- Witness for C9: the concrete three-emoji dict with all five keys present
round-trips exactly. -/
theorem c9_round_trip_witness :
    (ReactionSettings.fromDict exDict3).toDict = exDict3 :=
  (c9_round_trip exDict3).1 rfl rfl rfl rfl rfl

/-- C1: when a BoostedPost row keyed by (channel.id, post.message_id) already
exists, boost_post is a terminal no-op: zero external add-reaction calls (empty
event trace), no new ActivityLog or BoostedPost rows, channel unchanged, and
no exception.  Consequently a second boost_post call made after a first call
that recorded a BoostedPost row is such a no-op, so two calls in sequence
leave exactly the rows of one call and the second call performs zero external
reaction calls. -/
theorem c1_idempotent_short_circuit (B B₂ : Nat → ApiOutcome)
    (sh sh₂ : List String → List String) (U U₂ : ℚ → ℚ → Nat → ℚ)
    (ch : Channel) (post : Post) (db : Db) :
    (isAlreadyBoosted db ch.id post.message_id = true →
      boostPost B sh U ch post db = ⟨ch, db, [], none⟩) ∧
    (isAlreadyBoosted (boostPost B sh U ch post db).db ch.id post.message_id = true →
      boostPost B₂ sh₂ U₂ (boostPost B sh U ch post db).channel post
          (boostPost B sh U ch post db).db =
        ⟨(boostPost B sh U ch post db).channel,
          (boostPost B sh U ch post db).db, [], none⟩) := by
  constructor
  · intro h
    exact boostPost_of_boosted B sh U ch post db h
  · intro h
    apply boostPost_of_boosted
    rw [boostPost_channel_id]
    exact h

/-- Witness for C1: with a BoostedPost row for (1, 5) already present,
boost_post on channel 1 and post 5 is a no-op with an empty event trace. -/
theorem c1_idempotent_short_circuit_witness :
    boostPost exBehaviorMidFail id exUniform exCh3 exPost exDbBoosted =
      ⟨exCh3, exDbBoosted, [], none⟩ :=
  (c1_idempotent_short_circuit exBehaviorMidFail exBehaviorMidFail id id
      exUniform exUniform exCh3 exPost exDbBoosted).1 (by decide)

/-- C3 (code bug evaluation): with two selected emojis where the first
reaction attempt fails with a generic TelegramAPIError and the second
succeeds, the final event of the call is the randomized inter-reaction sleep,
placed after the last emoji of the selected list was processed.  The source
guards the sleep with `reactions_added < len(emojis)` (here 1 < 2 after the
last emoji), not with the emoji position, contradicting its own comment that
no delay follows the last reaction. -/
theorem c3_delay_after_last_emoji :
    (boostPost exBehaviorFirstFail id exUniform exCh2 exPost exDb).events =
      [.apiCall "a", .apiCall "b", .sleepBetween 1] ∧
    (boostPost exBehaviorFirstFail id exUniform exCh2 exPost exDb).events.getLast? =
      some (.sleepBetween 1) := by
  constructor
  · decide
  · decide

/-- C2 counterexample: with three selected emojis where the second reaction
attempt fails (unknown error) and the first and third succeed, the written
BoostedPost row carries reaction_count 2 but emojis_used equal to the full
selected list a, b, c.  The reaction_added rows show that exactly a and c
succeeded and the single unknown_error row names b, so emojis_used is not the
set of emojis that succeeded: the claimed value, the two-element list a, c,
differs from the stored one. -/
theorem c2_counterexample :
    (boostPost exBehaviorMidFail id exUniform exCh3 exPost exDb).db.boosted =
      [{ channel_id := 1, post_id := 5, reaction_count := 2,
         emojis_used := ["a", "b", "c"] }] ∧
    ((boostPost exBehaviorMidFail id exUniform exCh3 exPost exDb).db.activity.filter
        (fun a => a.activity_type == "reaction_added")).map (fun a => a.details) =
      [[("emoji", .pstr "a")], [("emoji", .pstr "c")]] ∧
    countErrorKind (boostPost exBehaviorMidFail id exUniform exCh3 exPost exDb).db
      "unknown_error" = 1 ∧
    ¬ ((boostPost exBehaviorMidFail id exUniform exCh3 exPost exDb).db.boosted.map
        (fun b => b.emojis_used) = [["a", "c"]]) := by
  refine ⟨by decide, by decide, by decide, by decide⟩

/-- C2 (amended): whenever the gates pass and at least one reaction succeeds,
exactly one BoostedPost row is appended whose reaction_count equals the number
of reactions that succeeded, and whose emojis_used equals the full selected
emoji list, including emojis whose reaction failed; the ActivityLog gains one
reaction_added row per success, one boost_completed row, and one error row per
failed emoji. -/
theorem c2_partial_failure_amended (B : Nat → ApiOutcome)
    (sh : List String → List String) (U : ℚ → ℚ → Nat → ℚ)
    (ch : Channel) (post : Post) (db : Db) (d : SettingsDict)
    (hnb : isAlreadyBoosted db ch.id post.message_id = false)
    (hrs : ch.reaction_settings = some d)
    (hne : d.isEmptyDict = false)
    (hab : (ReactionSettings.fromDict d).auto_boost = true)
    (hv : (ReactionSettings.fromDict d).validate = (true, none))
    (hB : ∀ k s, B k ≠ .nonApiError s)
    (ht : 0 < (boostLoop B U post (ReactionSettings.fromDict d).delay_min.numOf
      (ReactionSettings.fromDict d).delay_max.numOf
      (selectRandomEmojis sh (ReactionSettings.fromDict d)).length
      (selectRandomEmojis sh (ReactionSettings.fromDict d)) ch db 0 0 0).added) :
    (boostPost B sh U ch post db).db.boosted =
      db.boosted ++
        [{ channel_id := ch.id, post_id := post.message_id,
           reaction_count := (boostLoop B U post
             (ReactionSettings.fromDict d).delay_min.numOf
             (ReactionSettings.fromDict d).delay_max.numOf
             (selectRandomEmojis sh (ReactionSettings.fromDict d)).length
             (selectRandomEmojis sh (ReactionSettings.fromDict d)) ch db 0 0 0).added,
           emojis_used := selectRandomEmojis sh (ReactionSettings.fromDict d) }] ∧
    (boostPost B sh U ch post db).escaped = none ∧
    countType (boostPost B sh U ch post db).db "reaction_added" =
      countType db "reaction_added" +
        (boostLoop B U post (ReactionSettings.fromDict d).delay_min.numOf
          (ReactionSettings.fromDict d).delay_max.numOf
          (selectRandomEmojis sh (ReactionSettings.fromDict d)).length
          (selectRandomEmojis sh (ReactionSettings.fromDict d)) ch db 0 0 0).added ∧
    countType (boostPost B sh U ch post db).db "boost_completed" =
      countType db "boost_completed" + 1 ∧
    countType (boostPost B sh U ch post db).db "error" =
      countType db "error" +
        ((selectRandomEmojis sh (ReactionSettings.fromDict d)).length -
          (boostLoop B U post (ReactionSettings.fromDict d).delay_min.numOf
            (ReactionSettings.fromDict d).delay_max.numOf
            (selectRandomEmojis sh (ReactionSettings.fromDict d)).length
            (selectRandomEmojis sh (ReactionSettings.fromDict d)) ch db 0 0 0).added) := by
  obtain ⟨l1, l2, l3, l4, l5, l6, l7⟩ := boostLoop_counts B U post
    (ReactionSettings.fromDict d).delay_min.numOf
    (ReactionSettings.fromDict d).delay_max.numOf
    (selectRandomEmojis sh (ReactionSettings.fromDict d)).length hB
    (selectRandomEmojis sh (ReactionSettings.fromDict d)) ch db 0 0 0
  have hrun : boostPost B sh U ch post db =
      ⟨(boostLoop B U post (ReactionSettings.fromDict d).delay_min.numOf
          (ReactionSettings.fromDict d).delay_max.numOf
          (selectRandomEmojis sh (ReactionSettings.fromDict d)).length
          (selectRandomEmojis sh (ReactionSettings.fromDict d)) ch db 0 0 0).channel,
        logBoostCompleted
          (markAsBoosted
            (boostLoop B U post (ReactionSettings.fromDict d).delay_min.numOf
              (ReactionSettings.fromDict d).delay_max.numOf
              (selectRandomEmojis sh (ReactionSettings.fromDict d)).length
              (selectRandomEmojis sh (ReactionSettings.fromDict d)) ch db 0 0 0).db
            ch.id post.message_id
            (boostLoop B U post (ReactionSettings.fromDict d).delay_min.numOf
              (ReactionSettings.fromDict d).delay_max.numOf
              (selectRandomEmojis sh (ReactionSettings.fromDict d)).length
              (selectRandomEmojis sh (ReactionSettings.fromDict d)) ch db 0 0 0).added
            (selectRandomEmojis sh (ReactionSettings.fromDict d)))
          ch.id post.message_id
          (boostLoop B U post (ReactionSettings.fromDict d).delay_min.numOf
            (ReactionSettings.fromDict d).delay_max.numOf
            (selectRandomEmojis sh (ReactionSettings.fromDict d)).length
            (selectRandomEmojis sh (ReactionSettings.fromDict d)) ch db 0 0 0).added,
        (boostLoop B U post (ReactionSettings.fromDict d).delay_min.numOf
          (ReactionSettings.fromDict d).delay_max.numOf
          (selectRandomEmojis sh (ReactionSettings.fromDict d)).length
          (selectRandomEmojis sh (ReactionSettings.fromDict d)) ch db 0 0 0).events,
        none⟩ := by
    simp [boostPost, hnb, hrs, hne, hab, hv, l1, ht]
  rw [hrun]
  dsimp only
  have m1 := countType_markAsBoosted
    (boostLoop B U post (ReactionSettings.fromDict d).delay_min.numOf
      (ReactionSettings.fromDict d).delay_max.numOf
      (selectRandomEmojis sh (ReactionSettings.fromDict d)).length
      (selectRandomEmojis sh (ReactionSettings.fromDict d)) ch db 0 0 0).db
    ch.id post.message_id
    (boostLoop B U post (ReactionSettings.fromDict d).delay_min.numOf
      (ReactionSettings.fromDict d).delay_max.numOf
      (selectRandomEmojis sh (ReactionSettings.fromDict d)).length
      (selectRandomEmojis sh (ReactionSettings.fromDict d)) ch db 0 0 0).added
    (selectRandomEmojis sh (ReactionSettings.fromDict d))
  refine ⟨?_, rfl, ?_, ?_, ?_⟩
  · simp [logBoostCompleted, markAsBoosted, l4]
  · have m2 := countType_logBoostCompleted
      (markAsBoosted
        (boostLoop B U post (ReactionSettings.fromDict d).delay_min.numOf
          (ReactionSettings.fromDict d).delay_max.numOf
          (selectRandomEmojis sh (ReactionSettings.fromDict d)).length
          (selectRandomEmojis sh (ReactionSettings.fromDict d)) ch db 0 0 0).db
        ch.id post.message_id
        (boostLoop B U post (ReactionSettings.fromDict d).delay_min.numOf
          (ReactionSettings.fromDict d).delay_max.numOf
          (selectRandomEmojis sh (ReactionSettings.fromDict d)).length
          (selectRandomEmojis sh (ReactionSettings.fromDict d)) ch db 0 0 0).added
        (selectRandomEmojis sh (ReactionSettings.fromDict d)))
      ch.id post.message_id
      (boostLoop B U post (ReactionSettings.fromDict d).delay_min.numOf
        (ReactionSettings.fromDict d).delay_max.numOf
        (selectRandomEmojis sh (ReactionSettings.fromDict d)).length
        (selectRandomEmojis sh (ReactionSettings.fromDict d)) ch db 0 0 0).added
      "reaction_added"
    have m1a := m1 "reaction_added"
    simp only [String.reduceEq, reduceIte] at m2
    omega
  · have m2 := countType_logBoostCompleted
      (markAsBoosted
        (boostLoop B U post (ReactionSettings.fromDict d).delay_min.numOf
          (ReactionSettings.fromDict d).delay_max.numOf
          (selectRandomEmojis sh (ReactionSettings.fromDict d)).length
          (selectRandomEmojis sh (ReactionSettings.fromDict d)) ch db 0 0 0).db
        ch.id post.message_id
        (boostLoop B U post (ReactionSettings.fromDict d).delay_min.numOf
          (ReactionSettings.fromDict d).delay_max.numOf
          (selectRandomEmojis sh (ReactionSettings.fromDict d)).length
          (selectRandomEmojis sh (ReactionSettings.fromDict d)) ch db 0 0 0).added
        (selectRandomEmojis sh (ReactionSettings.fromDict d)))
      ch.id post.message_id
      (boostLoop B U post (ReactionSettings.fromDict d).delay_min.numOf
        (ReactionSettings.fromDict d).delay_max.numOf
        (selectRandomEmojis sh (ReactionSettings.fromDict d)).length
        (selectRandomEmojis sh (ReactionSettings.fromDict d)) ch db 0 0 0).added
      "boost_completed"
    have m1a := m1 "boost_completed"
    simp only [String.reduceEq, reduceIte] at m2
    omega
  · have m2 := countType_logBoostCompleted
      (markAsBoosted
        (boostLoop B U post (ReactionSettings.fromDict d).delay_min.numOf
          (ReactionSettings.fromDict d).delay_max.numOf
          (selectRandomEmojis sh (ReactionSettings.fromDict d)).length
          (selectRandomEmojis sh (ReactionSettings.fromDict d)) ch db 0 0 0).db
        ch.id post.message_id
        (boostLoop B U post (ReactionSettings.fromDict d).delay_min.numOf
          (ReactionSettings.fromDict d).delay_max.numOf
          (selectRandomEmojis sh (ReactionSettings.fromDict d)).length
          (selectRandomEmojis sh (ReactionSettings.fromDict d)) ch db 0 0 0).added
        (selectRandomEmojis sh (ReactionSettings.fromDict d)))
      ch.id post.message_id
      (boostLoop B U post (ReactionSettings.fromDict d).delay_min.numOf
        (ReactionSettings.fromDict d).delay_max.numOf
        (selectRandomEmojis sh (ReactionSettings.fromDict d)).length
        (selectRandomEmojis sh (ReactionSettings.fromDict d)) ch db 0 0 0).added
      "error"
    have m1a := m1 "error"
    simp only [String.reduceEq, reduceIte] at m2
    omega

/-- Witness for the amended C2 at the three-emoji scenario: reaction_count 2,
emojis_used the full selected list, reaction_added ×2, boost_completed ×1,
error ×1. -/
theorem c2_partial_failure_amended_witness :
    (boostPost exBehaviorMidFail id exUniform exCh3 exPost exDb).db.boosted =
      [{ channel_id := 1, post_id := 5, reaction_count := 2,
         emojis_used := ["a", "b", "c"] }] ∧
    countType (boostPost exBehaviorMidFail id exUniform exCh3 exPost exDb).db
      "reaction_added" = 2 ∧
    countType (boostPost exBehaviorMidFail id exUniform exCh3 exPost exDb).db
      "boost_completed" = 1 ∧
    countType (boostPost exBehaviorMidFail id exUniform exCh3 exPost exDb).db
      "error" = 1 := by
  obtain ⟨h1, h2, h3, h4, h5⟩ := c2_partial_failure_amended exBehaviorMidFail id
    exUniform exCh3 exPost exDb exDict3 (by decide) rfl (by decide) rfl
    (by decide)
    (by intro k s h; unfold exBehaviorMidFail at h; split at h <;> simp_all)
    (by decide)
  refine ⟨?_, ?_, ?_, ?_⟩
  · rw [h1]; decide
  · rw [h3]; decide
  · rw [h4]; decide
  · rw [h5]; decide

theorem boostPost_escaped_none (B : Nat → ApiOutcome)
    (sh : List String → List String) (U : ℚ → ℚ → Nat → ℚ)
    (ch : Channel) (post : Post) (db : Db)
    (hB : ∀ k s, B k ≠ .nonApiError s) :
    (boostPost B sh U ch post db).escaped = none := by
  unfold boostPost
  by_cases h1 : isAlreadyBoosted db ch.id post.message_id
  · simp [h1]
  · rcases hrs : ch.reaction_settings with _ | d
    · simp [h1, hrs]
    · by_cases h2 : d.isEmptyDict
      · simp [h1, hrs, h2]
      · by_cases h3 : (ReactionSettings.fromDict d).auto_boost = false
        · simp [h1, hrs, h2, h3]
        · rcases hv : (ReactionSettings.fromDict d).validate with ⟨b, msg⟩
          cases b
          · simp [h1, hrs, h2, h3, hv]
          · have l1 := (boostLoop_counts B U post
              (ReactionSettings.fromDict d).delay_min.numOf
              (ReactionSettings.fromDict d).delay_max.numOf
              (selectRandomEmojis sh (ReactionSettings.fromDict d)).length hB
              (selectRandomEmojis sh (ReactionSettings.fromDict d)) ch db 0 0 0).1
            by_cases ha : (boostLoop B U post
                (ReactionSettings.fromDict d).delay_min.numOf
                (ReactionSettings.fromDict d).delay_max.numOf
                (selectRandomEmojis sh (ReactionSettings.fromDict d)).length
                (selectRandomEmojis sh (ReactionSettings.fromDict d)) ch db 0 0 0).added > 0
            · simp [h1, hrs, h2, h3, hv, l1, ha]
            · simp [h1, hrs, h2, h3, hv, l1, ha]

/-- C4 counterexample: a reaction primitive that raises an exception outside
TelegramAPIError (for example a cancellation or a non-Telegram failure) is not
caught by the per-emoji except clause, and the exception propagates to the
caller of boost_post. -/
theorem c4_counterexample :
    (boostPost exBehaviorNonApi id exUniform exCh2 exPost exDb).escaped =
      some (.nonApiError "boom") := by decide

/-- C4 (amended): as long as every failure raised by the reaction primitive is
a TelegramAPIError (the error family of the §6 collaborator contract:
rate-limited, forbidden, or other API error), no exception escapes boost_post,
and every failed emoji attempt ends in one error ActivityLog row while the
loop continues (the error-row count plus the success count equals the number
of selected emojis whenever the gates pass).  Exceptions outside
TelegramAPIError propagate to the caller; the stores are modelled as
non-failing. -/
theorem c4_no_exception_amended (B : Nat → ApiOutcome)
    (sh : List String → List String) (U : ℚ → ℚ → Nat → ℚ)
    (ch : Channel) (post : Post) (db : Db)
    (hB : ∀ k s, B k ≠ .nonApiError s) :
    (boostPost B sh U ch post db).escaped = none ∧
    (∀ d, isAlreadyBoosted db ch.id post.message_id = false →
      ch.reaction_settings = some d → d.isEmptyDict = false →
      (ReactionSettings.fromDict d).auto_boost = true →
      (ReactionSettings.fromDict d).validate = (true, none) →
      countType (boostPost B sh U ch post db).db "error" +
          (boostLoop B U post (ReactionSettings.fromDict d).delay_min.numOf
            (ReactionSettings.fromDict d).delay_max.numOf
            (selectRandomEmojis sh (ReactionSettings.fromDict d)).length
            (selectRandomEmojis sh (ReactionSettings.fromDict d)) ch db 0 0 0).added =
        countType db "error" +
          (selectRandomEmojis sh (ReactionSettings.fromDict d)).length) := by
  constructor
  · exact boostPost_escaped_none B sh U ch post db hB
  · intro d hnb hrs hne hab hv
    obtain ⟨l1, l2, l3, l4, l5, l6, l7⟩ := boostLoop_counts B U post
      (ReactionSettings.fromDict d).delay_min.numOf
      (ReactionSettings.fromDict d).delay_max.numOf
      (selectRandomEmojis sh (ReactionSettings.fromDict d)).length hB
      (selectRandomEmojis sh (ReactionSettings.fromDict d)) ch db 0 0 0
    by_cases ha : (boostLoop B U post (ReactionSettings.fromDict d).delay_min.numOf
        (ReactionSettings.fromDict d).delay_max.numOf
        (selectRandomEmojis sh (ReactionSettings.fromDict d)).length
        (selectRandomEmojis sh (ReactionSettings.fromDict d)) ch db 0 0 0).added > 0
    · have hrun : boostPost B sh U ch post db =
          ⟨(boostLoop B U post (ReactionSettings.fromDict d).delay_min.numOf
              (ReactionSettings.fromDict d).delay_max.numOf
              (selectRandomEmojis sh (ReactionSettings.fromDict d)).length
              (selectRandomEmojis sh (ReactionSettings.fromDict d)) ch db 0 0 0).channel,
            logBoostCompleted
              (markAsBoosted
                (boostLoop B U post (ReactionSettings.fromDict d).delay_min.numOf
                  (ReactionSettings.fromDict d).delay_max.numOf
                  (selectRandomEmojis sh (ReactionSettings.fromDict d)).length
                  (selectRandomEmojis sh (ReactionSettings.fromDict d)) ch db 0 0 0).db
                ch.id post.message_id
                (boostLoop B U post (ReactionSettings.fromDict d).delay_min.numOf
                  (ReactionSettings.fromDict d).delay_max.numOf
                  (selectRandomEmojis sh (ReactionSettings.fromDict d)).length
                  (selectRandomEmojis sh (ReactionSettings.fromDict d)) ch db 0 0 0).added
                (selectRandomEmojis sh (ReactionSettings.fromDict d)))
              ch.id post.message_id
              (boostLoop B U post (ReactionSettings.fromDict d).delay_min.numOf
                (ReactionSettings.fromDict d).delay_max.numOf
                (selectRandomEmojis sh (ReactionSettings.fromDict d)).length
                (selectRandomEmojis sh (ReactionSettings.fromDict d)) ch db 0 0 0).added,
            (boostLoop B U post (ReactionSettings.fromDict d).delay_min.numOf
              (ReactionSettings.fromDict d).delay_max.numOf
              (selectRandomEmojis sh (ReactionSettings.fromDict d)).length
              (selectRandomEmojis sh (ReactionSettings.fromDict d)) ch db 0 0 0).events,
            none⟩ := by
        simp [boostPost, hnb, hrs, hne, hab, hv, l1, ha]
      rw [hrun]
      dsimp only
      have m1 := countType_markAsBoosted
        (boostLoop B U post (ReactionSettings.fromDict d).delay_min.numOf
          (ReactionSettings.fromDict d).delay_max.numOf
          (selectRandomEmojis sh (ReactionSettings.fromDict d)).length
          (selectRandomEmojis sh (ReactionSettings.fromDict d)) ch db 0 0 0).db
        ch.id post.message_id
        (boostLoop B U post (ReactionSettings.fromDict d).delay_min.numOf
          (ReactionSettings.fromDict d).delay_max.numOf
          (selectRandomEmojis sh (ReactionSettings.fromDict d)).length
          (selectRandomEmojis sh (ReactionSettings.fromDict d)) ch db 0 0 0).added
        (selectRandomEmojis sh (ReactionSettings.fromDict d)) "error"
      have m2 := countType_logBoostCompleted
        (markAsBoosted
          (boostLoop B U post (ReactionSettings.fromDict d).delay_min.numOf
            (ReactionSettings.fromDict d).delay_max.numOf
            (selectRandomEmojis sh (ReactionSettings.fromDict d)).length
            (selectRandomEmojis sh (ReactionSettings.fromDict d)) ch db 0 0 0).db
          ch.id post.message_id
          (boostLoop B U post (ReactionSettings.fromDict d).delay_min.numOf
            (ReactionSettings.fromDict d).delay_max.numOf
            (selectRandomEmojis sh (ReactionSettings.fromDict d)).length
            (selectRandomEmojis sh (ReactionSettings.fromDict d)) ch db 0 0 0).added
          (selectRandomEmojis sh (ReactionSettings.fromDict d)))
        ch.id post.message_id
        (boostLoop B U post (ReactionSettings.fromDict d).delay_min.numOf
          (ReactionSettings.fromDict d).delay_max.numOf
          (selectRandomEmojis sh (ReactionSettings.fromDict d)).length
          (selectRandomEmojis sh (ReactionSettings.fromDict d)) ch db 0 0 0).added
        "error"
      simp only [String.reduceEq, reduceIte] at m2
      omega
    · have hrun : boostPost B sh U ch post db =
          ⟨(boostLoop B U post (ReactionSettings.fromDict d).delay_min.numOf
              (ReactionSettings.fromDict d).delay_max.numOf
              (selectRandomEmojis sh (ReactionSettings.fromDict d)).length
              (selectRandomEmojis sh (ReactionSettings.fromDict d)) ch db 0 0 0).channel,
            (boostLoop B U post (ReactionSettings.fromDict d).delay_min.numOf
              (ReactionSettings.fromDict d).delay_max.numOf
              (selectRandomEmojis sh (ReactionSettings.fromDict d)).length
              (selectRandomEmojis sh (ReactionSettings.fromDict d)) ch db 0 0 0).db,
            (boostLoop B U post (ReactionSettings.fromDict d).delay_min.numOf
              (ReactionSettings.fromDict d).delay_max.numOf
              (selectRandomEmojis sh (ReactionSettings.fromDict d)).length
              (selectRandomEmojis sh (ReactionSettings.fromDict d)) ch db 0 0 0).events,
            none⟩ := by
        simp [boostPost, hnb, hrs, hne, hab, hv, l1, ha]
      rw [hrun]
      dsimp only
      omega

/-- Witness for the amended C4 at the three-emoji scenario with one generic
TelegramAPIError: nothing escapes and the single failure is logged. -/
theorem c4_no_exception_amended_witness :
    (boostPost exBehaviorMidFail id exUniform exCh3 exPost exDb).escaped = none ∧
    countType (boostPost exBehaviorMidFail id exUniform exCh3 exPost exDb).db
      "error" = 1 := by
  obtain ⟨h1, h2⟩ := c4_no_exception_amended exBehaviorMidFail id exUniform
    exCh3 exPost exDb
    (by intro k s h; unfold exBehaviorMidFail at h; split at h <;> simp_all)
  refine ⟨h1, ?_⟩
  have h3 := h2 exDict3 (by decide) rfl (by decide) rfl (by decide)
  have e1 : (selectRandomEmojis id (ReactionSettings.fromDict exDict3)).length = 3 := by
    decide
  have e2 : (boostLoop exBehaviorMidFail exUniform exPost
      (ReactionSettings.fromDict exDict3).delay_min.numOf
      (ReactionSettings.fromDict exDict3).delay_max.numOf
      (selectRandomEmojis id (ReactionSettings.fromDict exDict3)).length
      (selectRandomEmojis id (ReactionSettings.fromDict exDict3)) exCh3 exDb 0 0 0).added = 2 := by
    decide
  have e3 : countType exDb "error" = 0 := by decide
  omega

/-- C5 counterexample: mode both, valid settings selecting two emojis, every
add-reaction call forbidden.  boost_post logs one permission_error row per
failed emoji, hence two rows, not one as claimed; the mode downgrade and the
absence of a BoostedPost row do hold. -/
theorem c5_counterexample :
    countErrorKind (boostPost exBehaviorForbidden id exUniform exChBoth exPost
      exDb).db "permission_error" = 2 ∧
    ¬ (countErrorKind (boostPost exBehaviorForbidden id exUniform exChBoth exPost
      exDb).db "permission_error" = 1) ∧
    (boostPost exBehaviorForbidden id exUniform exChBoth exPost exDb).channel.mode =
      "comment" ∧
    (boostPost exBehaviorForbidden id exUniform exChBoth exPost exDb).db.boosted =
      [] := by
  refine ⟨by decide, by decide, by decide, by decide⟩

/-- C5 (amended): for a channel in mode both or reaction with valid settings,
when every add-reaction call fails with a forbidden error, boost_post logs one
permission_error ActivityLog row per selected emoji (reaction_count rows in
total), downgrades the channel mode to comment, writes no BoostedPost row, and
raises nothing. -/
theorem c5_permission_downgrade_amended (B : Nat → ApiOutcome)
    (sh : List String → List String) (U : ℚ → ℚ → Nat → ℚ)
    (ch : Channel) (post : Post) (db : Db) (d : SettingsDict)
    (hm : ch.mode = "both" ∨ ch.mode = "reaction")
    (hnb : isAlreadyBoosted db ch.id post.message_id = false)
    (hrs : ch.reaction_settings = some d)
    (hne : d.isEmptyDict = false)
    (hab : (ReactionSettings.fromDict d).auto_boost = true)
    (hv : (ReactionSettings.fromDict d).validate = (true, none))
    (hB : ∀ k, B k = .forbidden)
    (hsh : (sh (ReactionSettings.fromDict d).emojis).length =
      (ReactionSettings.fromDict d).emojis.length) :
    (boostPost B sh U ch post db).channel.mode = "comment" ∧
    (boostPost B sh U ch post db).db.boosted = db.boosted ∧
    (boostPost B sh U ch post db).escaped = none ∧
    countErrorKind (boostPost B sh U ch post db).db "permission_error" =
      countErrorKind db "permission_error" +
        (ReactionSettings.fromDict d).reaction_count.intOf.toNat := by
  obtain ⟨hv1, hv2, hv3, hv4, hv5, hv6, hv7, hv8, hv9⟩ := (validate_true_iff _).mp hv
  obtain ⟨f1, f2, f3, f4, f5⟩ := boostLoop_forbidden B U post
    (ReactionSettings.fromDict d).delay_min.numOf
    (ReactionSettings.fromDict d).delay_max.numOf
    (selectRandomEmojis sh (ReactionSettings.fromDict d)).length hB
    (selectRandomEmojis sh (ReactionSettings.fromDict d)) ch db 0 0 0
  have hlen : (selectRandomEmojis sh (ReactionSettings.fromDict d)).length =
      (ReactionSettings.fromDict d).reaction_count.intOf.toNat := by
    have hle : (ReactionSettings.fromDict d).reaction_count.intOf.toNat ≤
        (ReactionSettings.fromDict d).emojis.length := by omega
    simp [selectRandomEmojis, hsh, hle]
  have hEne : selectRandomEmojis sh (ReactionSettings.fromDict d) ≠ [] := by
    have : 0 < (selectRandomEmojis sh (ReactionSettings.fromDict d)).length := by
      rw [hlen]; omega
    exact List.length_pos.mp this
  have hrun : boostPost B sh U ch post db =
      ⟨(boostLoop B U post (ReactionSettings.fromDict d).delay_min.numOf
          (ReactionSettings.fromDict d).delay_max.numOf
          (selectRandomEmojis sh (ReactionSettings.fromDict d)).length
          (selectRandomEmojis sh (ReactionSettings.fromDict d)) ch db 0 0 0).channel,
        (boostLoop B U post (ReactionSettings.fromDict d).delay_min.numOf
          (ReactionSettings.fromDict d).delay_max.numOf
          (selectRandomEmojis sh (ReactionSettings.fromDict d)).length
          (selectRandomEmojis sh (ReactionSettings.fromDict d)) ch db 0 0 0).db,
        (boostLoop B U post (ReactionSettings.fromDict d).delay_min.numOf
          (ReactionSettings.fromDict d).delay_max.numOf
          (selectRandomEmojis sh (ReactionSettings.fromDict d)).length
          (selectRandomEmojis sh (ReactionSettings.fromDict d)) ch db 0 0 0).events,
        none⟩ := by
    simp [boostPost, hnb, hrs, hne, hab, hv, f1, f2]
  rw [hrun]
  dsimp only
  refine ⟨?_, f3, rfl, ?_⟩
  · rw [f5, if_neg hEne]
    exact disableReactionMode_mode ch hm
  · rw [f4, hlen]

/-- Witness for the amended C5 at the concrete mode-both scenario with two
selected emojis and an always-forbidden primitive. -/
theorem c5_permission_downgrade_amended_witness :
    (boostPost exBehaviorForbidden id exUniform exChBoth exPost exDb).channel.mode =
      "comment" ∧
    (boostPost exBehaviorForbidden id exUniform exChBoth exPost exDb).db.boosted =
      exDb.boosted ∧
    (boostPost exBehaviorForbidden id exUniform exChBoth exPost exDb).escaped =
      none ∧
    countErrorKind (boostPost exBehaviorForbidden id exUniform exChBoth exPost
      exDb).db "permission_error" = 2 := by
  obtain ⟨h1, h2, h3, h4⟩ := c5_permission_downgrade_amended exBehaviorForbidden
    id exUniform exChBoth exPost exDb exDict2 (Or.inl rfl) (by decide) rfl
    (by decide) rfl (by decide) (fun _ => rfl) rfl
  refine ⟨h1, h2, h3, ?_⟩
  rw [h4]; decide
